import Mathlib

/-!
Shallow embedding of the library model-access layer
(`ozpcenter/api/library/model_access.py`): read-through cache accessors,
single bookmark creation, peer-bookmark import, and batch folder
reorganization, together with proofs of the specification claims about them.

External collaborators (listing lookup with visibility rules, profile lookup,
notification lookup, `utils.make_keysafe`) are out of the shown source and are
modelled as pure functions collected in an `Env` record.  The Django cache is
an association list from string keys to cached values; the persistent store of
library entries is a list; notification dismissals are recorded as the list of
dismiss calls issued.  A ghost counter `repoQueries` counts how many times a
read accessor actually queried the repository (entered its `try` block), so
that "served from the cache / did not re-query the repository" is statable.
-/

/-- A catalog listing, reduced to the fields this module reads:
`id`, `title`, `is_deleted`, `is_enabled` and `listing_type.title`. -/
structure Listing where
  id : Nat
  title : String
  is_deleted : Bool
  is_enabled : Bool
  listing_type_title : Option String
  deriving DecidableEq

/-- A user profile; the library code only reads `user.username`. -/
structure Profile where
  username : String
  deriving DecidableEq

/-- A notification, reduced to what `import_bookmarks` reads: the type
discriminator returned by `notification_type()` and the `peer` payload fields
`user.username`, `folder_name` and `_bookmark_listing_ids` (the last one read
with default `[]`, so a missing list is the empty list). -/
structure Notification where
  notification_type : String
  peer_user_username : Option String
  peer_folder_name : Option String
  peer_bookmark_listing_ids : List Nat
  deriving DecidableEq

/-- `models.ApplicationLibraryEntry`: a bookmark of one listing by one owner,
optionally filed under a folder. -/
structure LibraryEntry where
  id : Nat
  listing : Listing
  owner_username : String
  folder : Option String
  deriving DecidableEq

/-- A value stored in the shared cache: either a query result (a collection of
entries, as cached by `get_all_library_entries` / `get_self_application_library`)
or a single entry (as cached by `get_library_entry_by_id`). -/
inductive CacheVal where
  | entries (l : List LibraryEntry)
  | entry (e : LibraryEntry)
  deriving DecidableEq

/-- `cache.get(key)`. -/
def cacheGet (c : List (String × CacheVal)) (k : String) : Option CacheVal :=
  (c.find? (fun p => p.1 == k)).map Prod.snd

/-- `cache.set(key, value)`: overwrite any previous binding of `k`. -/
def cacheSet (c : List (String × CacheVal)) (k : String) (v : CacheVal) :
    List (String × CacheVal) :=
  (k, v) :: c.filter (fun p => p.1 != k)

/-- The mutable state threaded through the operations: the shared cache, the
persistent store of library entries, the recorded notification-dismiss calls,
the next id the store will assign to a saved new entry, and the ghost counter
of repository queries issued by the read accessors. -/
structure State where
  cache : List (String × CacheVal)
  repo : List LibraryEntry
  dismissCalls : List Nat
  nextId : Nat
  repoQueries : Nat
  deriving DecidableEq

/-- The external collaborators, as pure lookup functions:
`listing_model_access.get_listing_by_id` (applies visibility rules),
`generic_model_access.get_profile`,
`notification_model_access.get_notification_by_id`, and
`utils.make_keysafe` (sanitizes a string for use in a cache key; its body is
outside the shown source, so it is kept abstract). -/
structure Env where
  getListingById : String → Nat → Option Listing
  getProfile : String → Option Profile
  getNotificationById : String → Nat → Option Notification
  make_keysafe : String → String

/-- Python truthiness of an optional string: `None` and `""` are falsy. -/
def truthyStr : Option String → Bool
  | none => false
  | some t => t != ""

/-- `'{0!s}'.format(x)` for an optional string: `None` prints as `"None"`. -/
def optFormat : Option String → String
  | none => "None"
  | some t => t

/-- Cache key of `get_all_library_entries`. -/
def libraryEntriesKey : String := "library_entries"

/-- Cache key of `get_library_entry_by_id`: `'library:{0!s}'.format(id)`. -/
def libraryIdKey (library_entry_id : Nat) : String :=
  "library:" ++ toString library_entry_id

/-- Cache key of `get_self_application_library` built from the listing type and
the already-sanitized username:
`'app_library({0!s}):{1!s}'.format(listing_type, username)`.
It takes no folder-name argument because the source key does not mention the
folder name. -/
def appLibraryKeyRaw (listing_type : Option String) (username : String) : String :=
  "app_library(" ++ optFormat listing_type ++ "):" ++ username

/-- The same key as built from the raw username (the source sanitizes with
`utils.make_keysafe` first). -/
def appLibraryKey (env : Env) (listing_type : Option String) (username : String) : String :=
  appLibraryKeyRaw listing_type (env.make_keysafe username)

/-- The repository query of `get_all_library_entries`:
`ApplicationLibraryEntry.objects.filter(listing__is_deleted=False).all()`. -/
def allQuery (repo : List LibraryEntry) : List LibraryEntry :=
  repo.filter (fun e => !e.listing.is_deleted)

/-- The repository query of `get_library_entry_by_id`:
`filter(listing__is_deleted=False).get(id=library_entry_id)`, absent when no
such row exists (Django raises `ObjectDoesNotExist`, caught by the caller). -/
def idQuery (repo : List LibraryEntry) (library_entry_id : Nat) : Option LibraryEntry :=
  (repo.filter (fun e => !e.listing.is_deleted)).find? (fun e => e.id == library_entry_id)

/-- The repository query of `get_self_application_library` (already-sanitized
username): owner filter, enabled and non-deleted listing filters, then the
optional listing-type and folder filters guarded by Python truthiness. -/
def selfQuery (repo : List LibraryEntry) (username : String)
    (listing_type folder_name : Option String) : List LibraryEntry :=
  let data := repo.filter (fun e => e.owner_username == username)
  let data := data.filter (fun e => e.listing.is_enabled)
  let data := data.filter (fun e => !e.listing.is_deleted)
  let data := if truthyStr listing_type then
      data.filter (fun e => e.listing.listing_type_title == listing_type) else data
  if truthyStr folder_name then data.filter (fun e => e.folder == folder_name) else data

/-- `get_all_library_entries()`: read-through on key `library_entries`.  The
`except ObjectDoesNotExist` branch is unreachable for a `filter(...).all()`
query, so the result is always a cached value. -/
def get_all_library_entries (s : State) : CacheVal × State :=
  let key := libraryEntriesKey
  match cacheGet s.cache key with
  | some data => (data, s)
  | none =>
    let data := allQuery s.repo
    (CacheVal.entries data,
      { s with cache := cacheSet s.cache key (CacheVal.entries data),
               repoQueries := s.repoQueries + 1 })

/-- `get_library_entry_by_id(library_entry_id)`: read-through on key
`library:<id>`; when the `get(id=...)` query finds no row the function returns
`None` without touching the cache. -/
def get_library_entry_by_id (s : State) (library_entry_id : Nat) :
    Option CacheVal × State :=
  let key := libraryIdKey library_entry_id
  match cacheGet s.cache key with
  | some data => (some data, s)
  | none =>
    match idQuery s.repo library_entry_id with
    | some e =>
        (some (CacheVal.entry e),
          { s with cache := cacheSet s.cache key (CacheVal.entry e),
                   repoQueries := s.repoQueries + 1 })
    | none => (none, { s with repoQueries := s.repoQueries + 1 })

/-- `get_self_application_library(username, listing_type, folder_name)`:
sanitizes the username, then read-through on key
`app_library(<listing_type>):<sanitized username>`.  As in the source, the
folder name takes no part in the key, and the `except` branch is unreachable
for a pure chain of `filter` calls. -/
def get_self_application_library (env : Env) (s : State) (username0 : String)
    (listing_type folder_name : Option String) : CacheVal × State :=
  let username := env.make_keysafe username0
  let key := appLibraryKeyRaw listing_type username
  match cacheGet s.cache key with
  | some data => (data, s)
  | none =>
    let data := selfQuery s.repo username listing_type folder_name
    (CacheVal.entries data,
      { s with cache := cacheSet s.cache key (CacheVal.entries data),
               repoQueries := s.repoQueries + 1 })

/-- Outcome of `create_self_user_library_entry`: the saved entry and the new
state, or the raised `Exception` message with the state unchanged. -/
inductive CreateResult where
  | ok (e : LibraryEntry) (s : State)
  | err (msg : String) (s : State)
  deriving DecidableEq

/-- The state carried by a `CreateResult`. -/
def CreateResult.state : CreateResult → State
  | .ok _ s => s
  | .err _ s => s

/-- `create_self_user_library_entry(username, listing_id, folder_name)`:
resolve the listing (visibility applied by the collaborator) and the profile;
if either is falsy raise `Exception('Listing or user not found')`; otherwise
save a new `ApplicationLibraryEntry(listing, owner, folder)` (the store
assigns `nextId` as its id) and return it.  The cache is never touched. -/
def create_self_user_library_entry (env : Env) (s : State) (username : String)
    (listing_id : Nat) (folder_name : Option String) : CreateResult :=
  let listing := env.getListingById username listing_id
  let owner := env.getProfile username
  match listing, owner with
  | some l, some o =>
      let e : LibraryEntry :=
        { id := s.nextId, listing := l, owner_username := o.username, folder := folder_name }
      .ok e { s with repo := s.repo ++ [e], nextId := s.nextId + 1 }
  | some _, none => .err "Listing or user not found" s
  | none, _ => .err "Listing or user not found" s

/-- Outcome of `import_bookmarks`: either `(errors, None)` with a non-empty
error list, or `(None, validated_data)` with the created entries. -/
inductive ImportResult where
  | errs (errors : List String) (s : State)
  | ok (entries : List LibraryEntry) (s : State)
  deriving DecidableEq

/-- The state carried by an `ImportResult`. -/
def ImportResult.state : ImportResult → State
  | .errs _ s => s
  | .ok _ s => s

/-- The create loop of `import_bookmarks`: for each listing id call
`create_self_user_library_entry`; a raised `Exception` is swallowed (`pass`)
and the id contributes nothing to `validated_data`. -/
def importLoop (env : Env) (username : String) (folder_name : Option String) :
    State → List Nat → State × List LibraryEntry
  | s, [] => (s, [])
  | s, listing_id :: rest =>
    match create_self_user_library_entry env s username listing_id folder_name with
    | .ok e s2 =>
        let (s3, es) := importLoop env username folder_name s2 rest
        (s3, e :: es)
    | .err _ s2 => importLoop env username folder_name s2 rest

/-- `import_bookmarks(current_username, peer_bookmark_notification_id)`:
resolve the notification (else stop with one error); require type
`'PEER.BOOKMARK'` (else stop with an error naming the actual type); accumulate
the username-mismatch, missing-folder-name and empty-bookmark-list errors; on
any error return `(errors, None)` with nothing mutated; otherwise create an
entry per listing id (failures swallowed), dismiss the notification once, and
return `(None, validated_data)`. -/
def import_bookmarks (env : Env) (s : State) (current_username : String)
    (peer_bookmark_notification_id : Nat) : ImportResult :=
  match env.getNotificationById current_username peer_bookmark_notification_id with
  | none => .errs ["Could not find Notification Entry"] s
  | some notification_entry =>
    let notification_entry_type := notification_entry.notification_type
    if notification_entry_type != "PEER.BOOKMARK" then
      .errs ["Notification Entry should be \x27PEER.BOOKMARK\x27 but it is \x27"
              ++ notification_entry_type ++ "\x27"] s
    else
      let peer_username := notification_entry.peer_user_username
      let peer_folder_name := notification_entry.peer_folder_name
      let peer_bookmark_list := notification_entry.peer_bookmark_listing_ids
      let errors :=
        (if peer_username != some current_username then
          ["Target username does not match current user\x27s username"] else []) ++
        (if !truthyStr peer_folder_name then
          ["Could not find folder_name entry"] else []) ++
        (if peer_bookmark_list.isEmpty then
          ["Could not find peer bookmark list entry"] else [])
      if errors.isEmpty then
        let r := importLoop env current_username peer_folder_name s peer_bookmark_list
        .ok r.2 { r.1 with
          dismissCalls := r.1.dismissCalls ++ [peer_bookmark_notification_id] }
      else .errs errors s

/-- One input element of `batch_update_user_library_entry`'s payload, keeping
the three levels of optionality of the Python dict: whether the `listing` key
is present (and then whether it holds an `id`), whether the entry's own `id`
key is present, and whether the `folder` key is present (and then its possibly
null value). -/
structure DataEntry where
  listing : Option (Option Nat)
  id : Option Nat
  folder : Option (Option String)
  deriving DecidableEq

/-- An element of `validated_data`: present exactly when the loop body set no
error flag, so the resolved listing and the entry id are both there; a missing
`folder` key was normalized to null. -/
structure ValidatedEntry where
  listing : Listing
  id : Nat
  folder : Option String
  deriving DecidableEq

/-- The body of the validation loop of `batch_update_user_library_entry` for
one data entry: the errors it appends (listing errors first, then the id
error) and the validated entry it appends when no error flag was set. -/
def validateDataEntry (env : Env) (username : String) (d : DataEntry) :
    List String × Option ValidatedEntry :=
  let listingStep : List String × Option Listing :=
    match d.listing with
    | none => (["Missing listing from data entry"], none)
    | some listing_id =>
      match listing_id.bind (env.getListingById username) with
      | none => (["Listing obj not found"], none)
      | some l => ([], some l)
  let idStep : List String × Option Nat :=
    match d.id with
    | none => (["Missing id from data entry"], none)
    | some i => ([], some i)
  let folderVal : Option String :=
    match d.folder with
    | none => none
    | some f => f
  match listingStep.2, idStep.2 with
  | some l, some i => (listingStep.1 ++ idStep.1, some ⟨l, i, folderVal⟩)
  | some _, none => (listingStep.1 ++ idStep.1, none)
  | none, _ => (listingStep.1 ++ idStep.1, none)

/-- The whole validation loop: fold the per-entry step over the payload,
accumulating `errors` and `validated_data` in order. -/
def validateBatch (env : Env) (username : String) (data : List DataEntry) :
    List String × List ValidatedEntry :=
  data.foldl
    (fun acc d =>
      let r := validateDataEntry env username d
      (acc.1 ++ r.1, acc.2 ++ (match r.2 with | some v => [v] | none => [])))
    ([], [])

/-- The apply loop of `batch_update_user_library_entry`: load each entry by id
through `get_library_entry_by_id`, overwrite `folder` and `listing`, save.
The loaded value is used unguarded: when the lookup returns `None` (or a
cached collection rather than a single entry) the attribute access faults and
the exception escapes, leaving the state reached so far — the `error` case. -/
def applyBatch : State → List ValidatedEntry → Except State State
  | s, [] => .ok s
  | s, v :: rest =>
    match get_library_entry_by_id s v.id with
    | (some (CacheVal.entry inst), s1) =>
        let inst2 := { inst with folder := v.folder, listing := v.listing }
        applyBatch
          { s1 with repo := s1.repo.map (fun x => if x.id == inst2.id then inst2 else x) }
          rest
    | (some (CacheVal.entries _), s1) => .error s1
    | (none, s1) => .error s1

/-- Outcome of `batch_update_user_library_entry`: `(errors, None)`,
`(None, data)` (the echoed original payload), or an escaped exception from the
apply loop carrying the state at the fault. -/
inductive BatchResult where
  | errs (errors : List String) (s : State)
  | ok (payload : List DataEntry) (s : State)
  | crash (s : State)
  deriving DecidableEq

/-- The state carried by a `BatchResult`. -/
def BatchResult.state : BatchResult → State
  | .errs _ s => s
  | .ok _ s => s
  | .crash s => s

/-- `batch_update_user_library_entry(username, data)`: validate every entry,
accumulating errors; on any error return `(errors, None)` with nothing
mutated; otherwise run the apply loop and return `(None, data)`. -/
def batch_update_user_library_entry (env : Env) (s : State) (username : String)
    (data : List DataEntry) : BatchResult :=
  let r := validateBatch env username data
  if r.1.isEmpty then
    match applyBatch s r.2 with
    | .ok s2 => .ok data s2
    | .error sf => .crash sf
  else .errs r.1 s

/-- A concrete environment for instantiations: no external entities resolve
and the sanitizer is the identity. -/
def envEmpty : Env :=
  { getListingById := fun _ _ => none
    getProfile := fun _ => none
    getNotificationById := fun _ _ => none
    make_keysafe := fun u => u }

/-- A concrete state with empty cache and empty repository. -/
def sEmpty : State :=
  { cache := [], repo := [], dismissCalls := [], nextId := 1, repoQueries := 0 }

/-- A concrete enabled, non-deleted listing. -/
def L1 : Listing :=
  { id := 1, title := "Listing One", is_deleted := false, is_enabled := true,
    listing_type_title := none }

/-- A concrete library entry bookmarking `L1` for user `alice`. -/
def E1 : LibraryEntry :=
  { id := 10, listing := L1, owner_username := "alice", folder := none }

/-- A concrete state whose repository holds exactly `E1`. -/
def sOne : State :=
  { cache := [], repo := [E1], dismissCalls := [], nextId := 11, repoQueries := 0 }

/-- Environment where every profile resolves but no listing does. -/
def envProfileOnly : Env :=
  { envEmpty with getProfile := fun u => some { username := u } }

/-- Environment where listing id 1 resolves to `L1` but no profile does. -/
def envListingOnly : Env :=
  { envEmpty with getListingById := fun _ n => if n == 1 then some L1 else none }

/-- Environment where listing id 1 resolves to `L1` and every profile
resolves. -/
def envFull : Env :=
  { getListingById := fun _ n => if n == 1 then some L1 else none
    getProfile := fun u => some { username := u }
    getNotificationById := fun _ _ => none
    make_keysafe := fun u => u }

/-- A second concrete enabled, non-deleted listing (id 3) for the import
example. -/
def L3 : Listing :=
  { id := 3, title := "Listing Three", is_deleted := false, is_enabled := true,
    listing_type_title := none }

/-- A concrete peer-bookmark notification for `alice` with three listing
ids. -/
def notifC2 : Notification :=
  { notification_type := "PEER.BOOKMARK", peer_user_username := some "alice",
    peer_folder_name := some "Imported", peer_bookmark_listing_ids := [1, 2, 3] }

/-- Environment for the import example: listings 1 and 3 resolve, listing 2
does not; profiles resolve; notification 7 is `notifC2`. -/
def envC2 : Env :=
  { getListingById := fun _ i =>
      if i == 1 then some L1 else if i == 3 then some L3 else none
    getProfile := fun u => some { username := u }
    getNotificationById := fun _ i => if i == 7 then some notifC2 else none
    make_keysafe := fun u => u }

/-- A concrete notification with the wrong discriminator. -/
def notifShare : Notification :=
  { notification_type := "PEER.SHARE", peer_user_username := some "alice",
    peer_folder_name := some "Imported", peer_bookmark_listing_ids := [1] }

/-- Environment where notification 9 is the wrong-type `notifShare`. -/
def envC3 : Env :=
  { envEmpty with getNotificationById := fun _ i => if i == 9 then some notifShare else none }

/-- A concrete valid notification whose single listing id will not resolve. -/
def notifC4 : Notification :=
  { notification_type := "PEER.BOOKMARK", peer_user_username := some "alice",
    peer_folder_name := some "Imported", peer_bookmark_listing_ids := [5] }

/-- Environment where notification 8 is `notifC4` and nothing else resolves,
so every per-item create fails. -/
def envC4 : Env :=
  { envEmpty with getNotificationById := fun _ i => if i == 8 then some notifC4 else none }

/-- The property C4 claims of every returned pair: the errors side is a
non-empty list, or the entries side is a non-empty list. -/
def resultExactlyOneNonEmpty : ImportResult → Bool
  | ImportResult.errs errors _ => !errors.isEmpty
  | ImportResult.ok entries _ => !entries.isEmpty

/-- The errors the validation loop of `batch_update_user_library_entry`
accumulates over a whole batch: the concatenation, in order, of each entry's
errors. -/
def batchErrors (env : Env) (username : String) (data : List DataEntry) : List String :=
  data.foldr (fun d acc => (validateDataEntry env username d).1 ++ acc) []

/-- The validated entries the validation loop appends over a whole batch. -/
def batchValidated (env : Env) (username : String) (data : List DataEntry) :
    List ValidatedEntry :=
  data.foldr
    (fun d acc =>
      (match (validateDataEntry env username d).2 with
        | some v => [v]
        | none => []) ++ acc) []

/-- A third concrete enabled, non-deleted listing (id 2). -/
def L2 : Listing :=
  { id := 2, title := "Listing Two", is_deleted := false, is_enabled := true,
    listing_type_title := none }

/-- A concrete library entry bookmarking `L3` for `alice`, id 30. -/
def E3 : LibraryEntry :=
  { id := 30, listing := L3, owner_username := "alice", folder := none }

/-- Environment for the batch examples: listings 1, 2 and 3 resolve; every
profile resolves. -/
def envC10 : Env :=
  { getListingById := fun _ i =>
      if i == 1 then some L1 else if i == 2 then some L2 else
        if i == 3 then some L3 else none
    getProfile := fun u => some { username := u }
    getNotificationById := fun _ _ => none
    make_keysafe := fun u => u }

/-- A concrete state whose store holds the entries with ids 10 and 30 (and
nothing with id 99). -/
def sC10 : State :=
  { cache := [], repo := [E1, E3], dismissCalls := [], nextId := 31, repoQueries := 0 }

/-- A batch of three entries whose listings all resolve and whose middle
entry names the unresolvable LibraryEntry id 99. -/
def dataC10 : List DataEntry :=
  [{ listing := some (some 1), id := some 10, folder := some (some "F") },
   { listing := some (some 2), id := some 99, folder := some (some "G") },
   { listing := some (some 3), id := some 30, folder := some (some "H") }]

/-- A data entry missing both its `listing` and its `id` key. -/
def dBad : DataEntry := { listing := none, id := none, folder := none }

/-- A data entry that validates cleanly against `envC10`. -/
def dGood : DataEntry :=
  { listing := some (some 1), id := some 10, folder := some (some "F") }

/-- The state carried by either side of the apply-loop outcome. -/
def exceptState (r : Except State State) : State :=
  match r with
  | .ok s => s
  | .error s => s

/-- A state with `E1` in the store and the result of a prior `getAll` read
already cached. -/
def sCached : State :=
  { cache := [(libraryEntriesKey, CacheVal.entries [E1])], repo := [E1],
    dismissCalls := [], nextId := 11, repoQueries := 1 }

theorem cacheGet_cacheSet_self (c : List (String × CacheVal)) (k : String) (v : CacheVal) :
    cacheGet (cacheSet c k v) k = some v := by
  simp [cacheGet, cacheSet]

theorem find?_filter_ne (c : List (String × CacheVal)) (k k1 : String) (h : k ≠ k1) :
    (c.filter (fun p => p.1 != k1)).find? (fun p => p.1 == k) =
      c.find? (fun p => p.1 == k) := by
  induction c with
  | nil => rfl
  | cons p c ih =>
    by_cases hpk : p.1 = k
    · have hp1 : (p.1 != k1) = true := by
        simp only [bne_iff_ne, ne_eq, hpk]
        exact h
      simp [List.filter_cons, hp1, List.find?_cons, hpk, h]
    · by_cases hp1 : p.1 = k1
      · have hne : (p.1 != k1) = false := by simp [bne, hp1]
        have hk : (p.1 == k) = false := by simp [hpk]
        simp [List.filter_cons, hne, List.find?_cons, hk, ih]
      · have hne : (p.1 != k1) = true := by
          simp only [bne_iff_ne, ne_eq]
          exact hp1
        simp [List.filter_cons, hne, List.find?_cons, hpk, ih]

theorem cacheGet_cacheSet_ne (c : List (String × CacheVal)) (k k1 : String)
    (v : CacheVal) (h : k ≠ k1) :
    cacheGet (cacheSet c k1 v) k = cacheGet c k := by
  have hk : (k1 == k) = false := by
    simp only [beq_eq_false_iff_ne]
    exact fun hh => h hh.symm
  simp [cacheGet, cacheSet, List.find?_cons, hk, find?_filter_ne c k k1 h]

/-- C5: each read operation of the library read cache is read-through: on a
cache miss it computes the query from the repository, stores the result under
the operation's key and returns it; when the by-id lookup finds no row it
returns `none` and leaves the cache unchanged; on a cache hit it returns the
cached value unmodified with no state change. -/
theorem read_through_cache_contract (env : Env) (s : State) (library_entry_id : Nat)
    (username : String) (listing_type folder_name : Option String) :
    (cacheGet s.cache libraryEntriesKey = none →
      get_all_library_entries s =
        (CacheVal.entries (allQuery s.repo),
         { s with
            cache := cacheSet s.cache libraryEntriesKey (CacheVal.entries (allQuery s.repo)),
            repoQueries := s.repoQueries + 1 })) ∧
    (∀ v, cacheGet s.cache libraryEntriesKey = some v →
      get_all_library_entries s = (v, s)) ∧
    (∀ e, cacheGet s.cache (libraryIdKey library_entry_id) = none →
      idQuery s.repo library_entry_id = some e →
      get_library_entry_by_id s library_entry_id =
        (some (CacheVal.entry e),
         { s with
            cache := cacheSet s.cache (libraryIdKey library_entry_id) (CacheVal.entry e),
            repoQueries := s.repoQueries + 1 })) ∧
    (cacheGet s.cache (libraryIdKey library_entry_id) = none →
      idQuery s.repo library_entry_id = none →
      (get_library_entry_by_id s library_entry_id).1 = none ∧
      ((get_library_entry_by_id s library_entry_id).2).cache = s.cache) ∧
    (∀ v, cacheGet s.cache (libraryIdKey library_entry_id) = some v →
      get_library_entry_by_id s library_entry_id = (some v, s)) ∧
    (cacheGet s.cache (appLibraryKey env listing_type username) = none →
      get_self_application_library env s username listing_type folder_name =
        (CacheVal.entries (selfQuery s.repo (env.make_keysafe username) listing_type folder_name),
         { s with
            cache := cacheSet s.cache (appLibraryKey env listing_type username)
              (CacheVal.entries (selfQuery s.repo (env.make_keysafe username) listing_type folder_name)),
            repoQueries := s.repoQueries + 1 })) ∧
    (∀ v, cacheGet s.cache (appLibraryKey env listing_type username) = some v →
      get_self_application_library env s username listing_type folder_name = (v, s)) := by
  refine ⟨?_, ?_, ?_, ?_, ?_, ?_, ?_⟩
  · intro h
    simp [get_all_library_entries, h]
  · intro v h
    simp [get_all_library_entries, h]
  · intro e h hq
    simp [get_library_entry_by_id, h, hq]
  · intro h hq
    simp [get_library_entry_by_id, h, hq]
  · intro v h
    simp [get_library_entry_by_id, h]
  · intro h
    simp only [appLibraryKey] at h
    simp [get_self_application_library, appLibraryKey, h]
  · intro v h
    simp only [appLibraryKey] at h
    simp [get_self_application_library, h]

/-- Closed instantiation of `read_through_cache_contract`: on the empty state
the miss path of `get_all_library_entries` computes, caches and returns the
query, and the by-id not-found path returns `none` without caching. -/
theorem read_through_cache_contract_witness :
    (cacheGet sEmpty.cache libraryEntriesKey = none ∧
      get_all_library_entries sEmpty =
        (CacheVal.entries (allQuery sEmpty.repo),
         { sEmpty with
            cache := cacheSet sEmpty.cache libraryEntriesKey
              (CacheVal.entries (allQuery sEmpty.repo)),
            repoQueries := sEmpty.repoQueries + 1 })) ∧
    (idQuery sEmpty.repo 1 = none ∧
      (get_library_entry_by_id sEmpty 1).1 = none ∧
      ((get_library_entry_by_id sEmpty 1).2).cache = sEmpty.cache) :=
  ⟨⟨by decide, (read_through_cache_contract envEmpty sEmpty 1 "alice" none none).1 (by decide)⟩,
   ⟨by decide,
    (read_through_cache_contract envEmpty sEmpty 1 "alice" none none).2.2.2.1
      (by decide) (by decide)⟩⟩

/-- C6 counterexample: on the empty state, `get_library_entry_by_id 1` finds
nothing and caches nothing, so the second identical call is again a cache miss
that queries the repository (the ghost query counter increases), contradicting
"the second call does not re-query the repository" for the not-found case. -/
theorem getById_second_call_requeries :
    (get_library_entry_by_id sEmpty 1).1 = none ∧
    cacheGet ((get_library_entry_by_id sEmpty 1).2).cache (libraryIdKey 1) = none ∧
    (get_library_entry_by_id (get_library_entry_by_id sEmpty 1).2 1).1 = none ∧
    ((get_library_entry_by_id (get_library_entry_by_id sEmpty 1).2 1).2).repoQueries =
      ((get_library_entry_by_id sEmpty 1).2).repoQueries + 1 := by
  decide

/-- C6 as amended: two identical reads with no intervening mutation return
identical results; the second call is served from the cache (state unchanged,
so no repository re-query) whenever the first call found a result — always for
`get_self_application_library`, and for `get_library_entry_by_id` exactly when
it did not return `none` (a not-found result is not cached, so that second
call re-queries while still returning the identical absent result). -/
theorem double_read_served_from_cache (env : Env) (s : State)
    (library_entry_id : Nat) (username : String)
    (listing_type folder_name : Option String) :
    ((get_library_entry_by_id (get_library_entry_by_id s library_entry_id).2
        library_entry_id).1 = (get_library_entry_by_id s library_entry_id).1) ∧
    ((get_library_entry_by_id s library_entry_id).1 ≠ none →
      get_library_entry_by_id (get_library_entry_by_id s library_entry_id).2
        library_entry_id = get_library_entry_by_id s library_entry_id) ∧
    (get_self_application_library env
        (get_self_application_library env s username listing_type folder_name).2
        username listing_type folder_name =
      get_self_application_library env s username listing_type folder_name) := by
  refine ⟨?_, ?_, ?_⟩
  · rcases hc : cacheGet s.cache (libraryIdKey library_entry_id) with _ | v
    · rcases hq : idQuery s.repo library_entry_id with _ | e
      · simp [get_library_entry_by_id, hc, hq]
      · simp [get_library_entry_by_id, hc, hq, cacheGet_cacheSet_self]
    · simp [get_library_entry_by_id, hc]
  · intro h
    rcases hc : cacheGet s.cache (libraryIdKey library_entry_id) with _ | v
    · rcases hq : idQuery s.repo library_entry_id with _ | e
      · exact absurd (by simp [get_library_entry_by_id, hc, hq]) h
      · simp [get_library_entry_by_id, hc, hq, cacheGet_cacheSet_self]
    · simp [get_library_entry_by_id, hc]
  · rcases hc : cacheGet s.cache
        (appLibraryKeyRaw listing_type (env.make_keysafe username)) with _ | v
    · simp [get_self_application_library, hc, cacheGet_cacheSet_self]
    · simp [get_self_application_library, hc]

/-- Closed instantiation of `double_read_served_from_cache`: with `E1` in the
repository the first by-id read finds it, and the second identical read leaves
the state unchanged (served from the cache). -/
theorem double_read_served_from_cache_witness :
    (get_library_entry_by_id sOne 10).1 ≠ none ∧
    get_library_entry_by_id (get_library_entry_by_id sOne 10).2 10 =
      get_library_entry_by_id sOne 10 :=
  ⟨by decide,
   (double_read_served_from_cache envEmpty sOne 10 "alice" none none).2.1 (by decide)⟩

/-- C9: the cache key of `get_self_application_library` does not involve the
folder name, so once a miss with folder filter `f1` has populated the key, a
later call with any other folder name `f2` (same username and listing type)
returns the value cached for `f1` — the result filtered by `f1`, not by
`f2`. -/
theorem getSelf_cache_key_ignores_folder (env : Env) (s : State)
    (username : String) (listing_type : Option String) (f1 f2 : Option String)
    (h : cacheGet s.cache (appLibraryKey env listing_type username) = none) :
    ∃ s1,
      get_self_application_library env s username listing_type f1 =
        (CacheVal.entries (selfQuery s.repo (env.make_keysafe username) listing_type f1), s1) ∧
      get_self_application_library env s1 username listing_type f2 =
        (CacheVal.entries (selfQuery s.repo (env.make_keysafe username) listing_type f1), s1) := by
  simp only [appLibraryKey] at h
  refine ⟨{ s with
      cache := cacheSet s.cache (appLibraryKeyRaw listing_type (env.make_keysafe username))
        (CacheVal.entries (selfQuery s.repo (env.make_keysafe username) listing_type f1)),
      repoQueries := s.repoQueries + 1 }, ?_, ?_⟩
  · simp [get_self_application_library, h]
  · simp [get_self_application_library, h, cacheGet_cacheSet_self]

/-- Closed instantiation of `getSelf_cache_key_ignores_folder`: populate the
key with folder filter `"Work"`, then read with folder filter `"Home"` and get
the `"Work"`-filtered value back. -/
theorem getSelf_cache_key_ignores_folder_witness :
    cacheGet sOne.cache (appLibraryKey envEmpty none "alice") = none ∧
    ∃ s1,
      get_self_application_library envEmpty sOne "alice" none (some "Work") =
        (CacheVal.entries (selfQuery sOne.repo (envEmpty.make_keysafe "alice") none (some "Work")), s1) ∧
      get_self_application_library envEmpty s1 "alice" none (some "Home") =
        (CacheVal.entries (selfQuery sOne.repo (envEmpty.make_keysafe "alice") none (some "Work")), s1) :=
  ⟨by decide,
   getSelf_cache_key_ignores_folder envEmpty sOne "alice" none (some "Work") (some "Home")
     (by decide)⟩

/-- C7 counterexample: the failure raised by `create_self_user_library_entry`
is the same fixed message `Listing or user not found` whether the listing or
the profile was the side that failed to resolve, so the error does not carry
which side was missing. -/
theorem create_error_not_side_specific :
    envProfileOnly.getListingById "alice" 1 = none ∧
    (envProfileOnly.getProfile "alice").isSome = true ∧
    (envListingOnly.getListingById "alice" 1).isSome = true ∧
    envListingOnly.getProfile "alice" = none ∧
    create_self_user_library_entry envProfileOnly sEmpty "alice" 1 none =
      CreateResult.err "Listing or user not found" sEmpty ∧
    create_self_user_library_entry envListingOnly sEmpty "alice" 1 none =
      CreateResult.err "Listing or user not found" sEmpty := by
  decide

/-- C7 as amended: when the listing or the profile fails to resolve, the
operation raises the single undifferentiated message
`Listing or user not found` and persists nothing; on success it saves and
returns a new entry `LibraryEntry(listing, owner, folder=folder_name)` with
the next store id. -/
theorem create_self_user_library_entry_spec (env : Env) (s : State)
    (username : String) (listing_id : Nat) (folder_name : Option String) :
    ((env.getListingById username listing_id = none ∨ env.getProfile username = none) →
      create_self_user_library_entry env s username listing_id folder_name =
        CreateResult.err "Listing or user not found" s) ∧
    (∀ l o, env.getListingById username listing_id = some l →
      env.getProfile username = some o →
      create_self_user_library_entry env s username listing_id folder_name =
        CreateResult.ok
          { id := s.nextId, listing := l, owner_username := o.username, folder := folder_name }
          { s with
              repo := s.repo ++
                [{ id := s.nextId, listing := l, owner_username := o.username,
                   folder := folder_name }],
              nextId := s.nextId + 1 }) := by
  constructor
  · intro h
    rcases h with h | h
    · simp [create_self_user_library_entry, h]
    · rcases hl : env.getListingById username listing_id with _ | l <;>
        simp [create_self_user_library_entry, hl, h]
  · intro l o hl ho
    simp [create_self_user_library_entry, hl, ho]

/-- Closed instantiation of `create_self_user_library_entry_spec`: the failure
side on the empty environment and the success side on `envFull`. -/
theorem create_self_user_library_entry_spec_witness :
    (envEmpty.getListingById "alice" 1 = none ∧
      create_self_user_library_entry envEmpty sEmpty "alice" 1 none =
        CreateResult.err "Listing or user not found" sEmpty) ∧
    (envFull.getListingById "alice" 1 = some L1 ∧
      envFull.getProfile "alice" = some { username := "alice" } ∧
      create_self_user_library_entry envFull sEmpty "alice" 1 (some "Work") =
        CreateResult.ok
          { id := sEmpty.nextId, listing := L1, owner_username := "alice",
            folder := some "Work" }
          { sEmpty with
              repo := sEmpty.repo ++
                [{ id := sEmpty.nextId, listing := L1, owner_username := "alice",
                   folder := some "Work" }],
              nextId := sEmpty.nextId + 1 }) :=
  ⟨⟨by decide,
    (create_self_user_library_entry_spec envEmpty sEmpty "alice" 1 none).1
      (Or.inl (by decide))⟩,
   ⟨by decide, by decide,
    (create_self_user_library_entry_spec envFull sEmpty "alice" 1 (some "Work")).2
      L1 { username := "alice" } (by decide) (by decide)⟩⟩

theorem importLoop_spec (env : Env) (u : String) (f : Option String) :
    ∀ (ids : List Nat) (s : State),
      ((importLoop env u f s ids).1).cache = s.cache ∧
      ((importLoop env u f s ids).1).dismissCalls = s.dismissCalls ∧
      ((importLoop env u f s ids).1).repo = s.repo ++ (importLoop env u f s ids).2 ∧
      ((importLoop env u f s ids).2).length ≤ ids.length ∧
      ((env.getProfile u).isSome = true →
        ((importLoop env u f s ids).2).map (fun e => e.listing) =
          ids.filterMap (env.getListingById u)) ∧
      (env.getProfile u = none → (importLoop env u f s ids).2 = []) := by
  intro ids
  induction ids with
  | nil => intro s; simp [importLoop]
  | cons i rest ih =>
    intro s
    rcases ho : env.getProfile u with _ | o
    · have hcr : create_self_user_library_entry env s u i f =
          CreateResult.err "Listing or user not found" s := by
        rcases hl : env.getListingById u i with _ | l <;>
          simp [create_self_user_library_entry, hl, ho]
      have hstep : importLoop env u f s (i :: rest) = importLoop env u f s rest := by
        simp [importLoop, hcr]
      have h := ih s
      rw [hstep]
      refine ⟨h.1, h.2.1, h.2.2.1, le_trans h.2.2.2.1 (Nat.le_succ _), ?_,
        fun _ => h.2.2.2.2.2 ho⟩
      intro hs
      simp at hs
    · rcases hl : env.getListingById u i with _ | l
      · have hcr : create_self_user_library_entry env s u i f =
            CreateResult.err "Listing or user not found" s := by
          simp [create_self_user_library_entry, hl, ho]
        have hstep : importLoop env u f s (i :: rest) = importLoop env u f s rest := by
          simp [importLoop, hcr]
        have h := ih s
        rw [hstep]
        refine ⟨h.1, h.2.1, h.2.2.1, le_trans h.2.2.2.1 (Nat.le_succ _), ?_, ?_⟩
        · intro hs
          rw [List.filterMap_cons]
          rw [hl]
          exact h.2.2.2.2.1 (by rw [ho]; rfl)
        · intro hcontr
          exact Option.noConfusion hcontr
      · have hcr : create_self_user_library_entry env s u i f =
            CreateResult.ok
              { id := s.nextId, listing := l, owner_username := o.username, folder := f }
              { s with
                  repo := s.repo ++
                    [{ id := s.nextId, listing := l, owner_username := o.username,
                       folder := f }],
                  nextId := s.nextId + 1 } := by
          simp [create_self_user_library_entry, hl, ho]
        have hstep : importLoop env u f s (i :: rest) =
            ((importLoop env u f
                { s with
                    repo := s.repo ++
                      [{ id := s.nextId, listing := l, owner_username := o.username,
                         folder := f }],
                    nextId := s.nextId + 1 } rest).1,
             { id := s.nextId, listing := l, owner_username := o.username, folder := f } ::
               (importLoop env u f
                 { s with
                     repo := s.repo ++
                       [{ id := s.nextId, listing := l, owner_username := o.username,
                          folder := f }],
                     nextId := s.nextId + 1 } rest).2) := by
          simp [importLoop, hcr]
        have h := ih
          { s with
              repo := s.repo ++
                [{ id := s.nextId, listing := l, owner_username := o.username,
                   folder := f }],
              nextId := s.nextId + 1 }
        rw [hstep]
        refine ⟨h.1, h.2.1, ?_, Nat.succ_le_succ h.2.2.2.1, ?_, ?_⟩
        · rw [h.2.2.1]
          simp
        · intro hs
          rw [List.filterMap_cons]
          rw [hl]
          simp only [List.map_cons]
          rw [h.2.2.2.2.1 (by rw [ho]; rfl)]
        · intro hcontr
          exact Option.noConfusion hcontr

theorem isEmpty_false_of_ne_nil {α : Type} {l : List α} (h : l ≠ []) :
    l.isEmpty = false := by
  cases l with
  | nil => exact absurd rfl h
  | cons a t => rfl

/-- C2: when `import_bookmarks` reaches the apply phase (validation clean),
each listing id is attempted in order, a per-item creation failure is
swallowed (that id is simply omitted), the notification is dismissed exactly
once after all ids are attempted, the cache is untouched, and the call returns
`(null, importedEntries)` where the imported entries — exactly the ones
appended to the store — are the successful creations, possibly fewer than the
requested ids (the listings of the entries are exactly the ids that resolve,
when the profile resolves; none are created when it does not). -/
theorem import_apply_phase (env : Env) (s : State) (current_username : String)
    (nid : Nat) (n : Notification)
    (hn : env.getNotificationById current_username nid = some n)
    (ht : n.notification_type = "PEER.BOOKMARK")
    (hu : n.peer_user_username = some current_username)
    (hf : truthyStr n.peer_folder_name = true)
    (hl : n.peer_bookmark_listing_ids ≠ []) :
    ∃ entries s2,
      import_bookmarks env s current_username nid = ImportResult.ok entries s2 ∧
      s2.dismissCalls = s.dismissCalls ++ [nid] ∧
      s2.cache = s.cache ∧
      s2.repo = s.repo ++ entries ∧
      entries.length ≤ n.peer_bookmark_listing_ids.length ∧
      ((env.getProfile current_username).isSome = true →
        entries.map (fun e => e.listing) =
          n.peer_bookmark_listing_ids.filterMap (env.getListingById current_username)) ∧
      (env.getProfile current_username = none → entries = []) := by
  have hloop := importLoop_spec env current_username n.peer_folder_name
      n.peer_bookmark_listing_ids s
  refine ⟨(importLoop env current_username n.peer_folder_name s
        n.peer_bookmark_listing_ids).2,
    { (importLoop env current_username n.peer_folder_name s
        n.peer_bookmark_listing_ids).1 with
        dismissCalls :=
          (importLoop env current_username n.peer_folder_name s
            n.peer_bookmark_listing_ids).1.dismissCalls ++ [nid] },
    ?_, ?_, hloop.1, hloop.2.2.1, hloop.2.2.2.1, hloop.2.2.2.2.1, hloop.2.2.2.2.2⟩
  · simp [import_bookmarks, hn, ht, hu, hf, isEmpty_false_of_ne_nil hl]
  · simp [hloop.2.1]

/-- Closed instantiation of `import_apply_phase`: a valid notification with
three listing ids of which the second does not resolve. -/
theorem import_apply_phase_witness :
    (envC2.getNotificationById "alice" 7 = some notifC2 ∧
      notifC2.notification_type = "PEER.BOOKMARK" ∧
      notifC2.peer_user_username = some "alice" ∧
      truthyStr notifC2.peer_folder_name = true ∧
      notifC2.peer_bookmark_listing_ids ≠ []) ∧
    (∃ entries s2,
      import_bookmarks envC2 sEmpty "alice" 7 = ImportResult.ok entries s2 ∧
      s2.dismissCalls = sEmpty.dismissCalls ++ [7] ∧
      s2.cache = sEmpty.cache ∧
      s2.repo = sEmpty.repo ++ entries ∧
      entries.length ≤ notifC2.peer_bookmark_listing_ids.length ∧
      ((envC2.getProfile "alice").isSome = true →
        entries.map (fun e => e.listing) =
          notifC2.peer_bookmark_listing_ids.filterMap (envC2.getListingById "alice")) ∧
      (envC2.getProfile "alice" = none → entries = [])) :=
  ⟨⟨by decide, by decide, by decide, by decide, by decide⟩,
   import_apply_phase envC2 sEmpty "alice" 7 notifC2
     (by decide) (by decide) (by decide) (by decide) (by decide)⟩

/-- C3: every validation failure of `import_bookmarks` — notification not
found, wrong discriminator (the error names the actual type found and the
call stops), or any of the three accumulated payload checks — returns a
non-empty error list and leaves the state unchanged: no entry is created and
the notification is not dismissed. -/
theorem import_validation_failure (env : Env) (s : State)
    (current_username : String) (nid : Nat) :
    (env.getNotificationById current_username nid = none →
      import_bookmarks env s current_username nid =
        ImportResult.errs ["Could not find Notification Entry"] s) ∧
    (∀ n, env.getNotificationById current_username nid = some n →
      (n.notification_type ≠ "PEER.BOOKMARK" →
        import_bookmarks env s current_username nid =
          ImportResult.errs
            ["Notification Entry should be \x27PEER.BOOKMARK\x27 but it is \x27"
              ++ n.notification_type ++ "\x27"] s) ∧
      (n.notification_type = "PEER.BOOKMARK" →
        (n.peer_user_username ≠ some current_username ∨
            truthyStr n.peer_folder_name = false ∨
            n.peer_bookmark_listing_ids = []) →
        ∃ errors, errors ≠ [] ∧
          import_bookmarks env s current_username nid =
            ImportResult.errs errors s)) := by
  refine ⟨?_, ?_⟩
  · intro hn
    simp [import_bookmarks, hn]
  · intro n hn
    refine ⟨?_, ?_⟩
    · intro ht
      have htb : (n.notification_type != "PEER.BOOKMARK") = true := by
        simp only [bne_iff_ne, ne_eq]
        exact ht
      simp [import_bookmarks, hn, htb]
    · intro ht hcond
      refine ⟨(if n.peer_user_username != some current_username then
            ["Target username does not match current user\x27s username"] else []) ++
          (if !truthyStr n.peer_folder_name then
            ["Could not find folder_name entry"] else []) ++
          (if n.peer_bookmark_listing_ids.isEmpty then
            ["Could not find peer bookmark list entry"] else []), ?_, ?_⟩
      · intro hnil
        have hab := (List.append_eq_nil.mp hnil).1
        have hc := (List.append_eq_nil.mp hnil).2
        have ha := (List.append_eq_nil.mp hab).1
        have hb := (List.append_eq_nil.mp hab).2
        rcases hcond with h | h | h
        · rw [if_pos (bne_iff_ne.mpr h)] at ha
          exact List.cons_ne_nil _ _ ha
        · rw [if_pos (by simp [h])] at hb
          exact List.cons_ne_nil _ _ hb
        · rw [if_pos (by simp [h])] at hc
          exact List.cons_ne_nil _ _ hc
      · simp only [import_bookmarks, hn, ht]
        simp
        intro h1 h2
        rcases hcond with h | h | h
        · exact absurd h1 h
        · simp [h] at h2
        · exact h

/-- Closed instantiation of `import_validation_failure`: a `PEER.SHARE`
notification yields the error naming the actual type and leaves the state
unchanged (no creation, no dismissal). -/
theorem import_validation_failure_witness :
    (envC3.getNotificationById "alice" 9 = some notifShare ∧
      notifShare.notification_type ≠ "PEER.BOOKMARK") ∧
    import_bookmarks envC3 sEmpty "alice" 9 =
      ImportResult.errs
        ["Notification Entry should be \x27PEER.BOOKMARK\x27 but it is \x27"
          ++ notifShare.notification_type ++ "\x27"] sEmpty :=
  ⟨⟨by decide, by decide⟩,
   ((import_validation_failure envC3 sEmpty "alice" 9).2 notifShare
     (by decide)).1 (by decide)⟩

/-- C4 counterexample: a valid notification whose only listing id fails to
resolve makes `import_bookmarks` return `(None, [])` — the errors side is null
and the entries side is empty, so neither component is non-empty/non-null. -/
theorem import_exactly_one_nonempty_fails :
    import_bookmarks envC4 sEmpty "alice" 8 =
      ImportResult.ok [] { sEmpty with dismissCalls := [8] } ∧
    resultExactlyOneNonEmpty (import_bookmarks envC4 sEmpty "alice" 8) = false := by
  decide

theorem import_errs_ne_nil (env : Env) (s : State) (u : String) (nid : Nat)
    (errors : List String) (s2 : State)
    (h : import_bookmarks env s u nid = ImportResult.errs errors s2) :
    errors ≠ [] := by
  simp only [import_bookmarks] at h
  split at h
  · injection h with h1 h2
    rw [← h1]
    simp
  · split at h
    · injection h with h1 h2
      rw [← h1]
      simp
    · split at h
      · rw [if_neg (by simp)] at h
        injection h with h1 h2
        rw [← h1]
        simp
      · split at h
        · rw [if_neg (by simp)] at h
          injection h with h1 h2
          rw [← h1]
          simp
        · split at h
          · rw [if_neg (by simp)] at h
            injection h with h1 h2
            rw [← h1]
            simp
          · simp at h

/-- C4 as amended: every call to `import_bookmarks` returns either a
non-empty error list with null entries, or null errors with the list of
created entries — which may be empty when every per-item create failed. -/
theorem import_result_shape (env : Env) (s : State) (current_username : String)
    (nid : Nat) :
    (∃ errors s2, import_bookmarks env s current_username nid =
        ImportResult.errs errors s2 ∧ errors ≠ []) ∨
    (∃ entries s2, import_bookmarks env s current_username nid =
        ImportResult.ok entries s2) := by
  rcases hres : import_bookmarks env s current_username nid with ⟨errors, s2⟩ | ⟨entries, s2⟩
  · exact Or.inl ⟨errors, s2, rfl,
      import_errs_ne_nil env s current_username nid errors s2 hres⟩
  · exact Or.inr ⟨entries, s2, rfl⟩

theorem validateBatch_go (env : Env) (username : String) :
    ∀ (data : List DataEntry) (e0 : List String) (v0 : List ValidatedEntry),
      data.foldl
        (fun acc d =>
          let r := validateDataEntry env username d
          (acc.1 ++ r.1, acc.2 ++ (match r.2 with | some v => [v] | none => [])))
        (e0, v0) =
      (e0 ++ batchErrors env username data, v0 ++ batchValidated env username data) := by
  intro data
  induction data with
  | nil => intro e0 v0; simp [batchErrors, batchValidated]
  | cons d rest ih =>
    intro e0 v0
    simp only [List.foldl_cons]
    rw [ih]
    simp [batchErrors, batchValidated, List.append_assoc]

theorem validateBatch_eq (env : Env) (username : String) (data : List DataEntry) :
    validateBatch env username data =
      (batchErrors env username data, batchValidated env username data) := by
  have h := validateBatch_go env username data [] []
  simpa [validateBatch] using h

theorem batchErrors_ne_nil (env : Env) (username : String) :
    ∀ (data : List DataEntry),
      (∃ d ∈ data, (validateDataEntry env username d).1 ≠ []) →
      batchErrors env username data ≠ [] := by
  intro data
  induction data with
  | nil =>
    rintro ⟨d, hd, _⟩
    cases hd
  | cons d0 rest ih =>
    rintro ⟨d, hd, hne⟩ hnil
    simp only [batchErrors, List.foldr_cons] at hnil
    rcases List.append_eq_nil.mp hnil with ⟨h1, h2⟩
    rcases List.mem_cons.mp hd with hd | hd
    · rw [← hd] at h1
      exact hne h1
    · exact ih ⟨d, hd, hne⟩ h2

/-- C1: if any entry of the batch fails validation (missing `listing`,
unresolvable listing id, or missing `id`), `batch_update_user_library_entry`
returns the errors of every entry of the batch, accumulated in order without
short-circuiting, and performs no mutation at all: the state (store and
cache) comes back untouched, including for entries that individually
validated. -/
theorem batch_validation_failure_rejects_all (env : Env) (s : State)
    (username : String) (data : List DataEntry)
    (h : ∃ d ∈ data, (validateDataEntry env username d).1 ≠ []) :
    batch_update_user_library_entry env s username data =
      BatchResult.errs (batchErrors env username data) s := by
  have hne := batchErrors_ne_nil env username data h
  simp [batch_update_user_library_entry, validateBatch_eq,
    isEmpty_false_of_ne_nil hne]

/-- Closed instantiation of `batch_validation_failure_rejects_all`: a batch
with one clean entry and one failing entry returns only the accumulated
errors and leaves the state untouched. -/
theorem batch_validation_failure_rejects_all_witness :
    (∃ d ∈ [dGood, dBad], (validateDataEntry envC10 "alice" d).1 ≠ []) ∧
    batch_update_user_library_entry envC10 sC10 "alice" [dGood, dBad] =
      BatchResult.errs (batchErrors envC10 "alice" [dGood, dBad]) sC10 :=
  ⟨⟨dBad, by decide, by decide⟩,
   batch_validation_failure_rejects_all envC10 sC10 "alice" [dGood, dBad]
     ⟨dBad, by decide, by decide⟩⟩

/-- C10: the validation loop never resolves an entry's own `id` against the
store (it only checks the key is present), so the batch `dataC10` — whose
middle entry carries the unresolvable id 99 — passes validation with zero
errors; the apply phase then loads id 99 unguarded, faults after having
already persisted the folder change of the first entry (id 10), and never
reaches the third (id 30): the apply phase is not atomic. -/
theorem batch_apply_not_atomic :
    (validateBatch envC10 "alice" dataC10).1 = [] ∧
    idQuery sC10.repo 99 = none ∧
    batch_update_user_library_entry envC10 sC10 "alice" dataC10 =
      BatchResult.crash
        { cache := [(libraryIdKey 10, CacheVal.entry E1)],
          repo := [{ id := 10, listing := L1, owner_username := "alice",
                     folder := some "F" },
                   E3],
          dismissCalls := [], nextId := 31, repoQueries := 2 } := by
  decide

theorem create_state_cache (env : Env) (s : State) (u : String) (lid : Nat)
    (f : Option String) :
    ((create_self_user_library_entry env s u lid f).state).cache = s.cache := by
  rcases hl : env.getListingById u lid with _ | l <;>
    rcases ho : env.getProfile u with _ | o <;>
      simp [create_self_user_library_entry, CreateResult.state, hl, ho]

theorem import_state_cache (env : Env) (s : State) (u : String) (nid : Nat) :
    ((import_bookmarks env s u nid).state).cache = s.cache := by
  simp only [import_bookmarks]
  split
  · rfl
  · split
    · rfl
    · split <;> split <;> split <;>
        first
          | rfl
          | (simp only [ImportResult.state]; exact (importLoop_spec env u _ _ s).1)

theorem cacheGet_getById_state (s : State) (i : Nat) (k : String) (v : CacheVal)
    (h : cacheGet s.cache k = some v) :
    cacheGet ((get_library_entry_by_id s i).2).cache k = some v := by
  rcases hc : cacheGet s.cache (libraryIdKey i) with _ | w
  · rcases hq : idQuery s.repo i with _ | e
    · simpa [get_library_entry_by_id, hc, hq] using h
    · have hne : k ≠ libraryIdKey i := by
        intro hk
        rw [hk] at h
        rw [h] at hc
        cases hc
      simp [get_library_entry_by_id, hc, hq, cacheGet_cacheSet_ne _ _ _ _ hne, h]
  · simpa [get_library_entry_by_id, hc] using h

theorem applyBatch_preserves_cache :
    ∀ (vs : List ValidatedEntry) (s : State) (k : String) (v : CacheVal),
      cacheGet s.cache k = some v →
      cacheGet ((exceptState (applyBatch s vs)).cache) k = some v := by
  intro vs
  induction vs with
  | nil =>
    intro s k v h
    simpa [applyBatch, exceptState] using h
  | cons ve rest ih =>
    intro s k v h
    have h1 := cacheGet_getById_state s ve.id k v h
    rcases hg : get_library_entry_by_id s ve.id with ⟨r, s1⟩
    rw [hg] at h1
    rcases r with _ | cv
    · simpa [applyBatch, hg, exceptState] using h1
    · rcases cv with ls | e
      · simpa [applyBatch, hg, exceptState] using h1
      · have h2 := ih
          { s1 with repo := s1.repo.map (fun x =>
              if x.id == ({ e with folder := ve.folder, listing := ve.listing } :
                  LibraryEntry).id
              then { e with folder := ve.folder, listing := ve.listing } else x) }
          k v (by simpa using h1)
        simpa [applyBatch, hg, exceptState] using h2

theorem batch_state_preserves_cache (env : Env) (s : State) (username : String)
    (data : List DataEntry) (k : String) (v : CacheVal)
    (h : cacheGet s.cache k = some v) :
    cacheGet ((batch_update_user_library_entry env s username data).state).cache k
      = some v := by
  simp only [batch_update_user_library_entry]
  split
  · split
    · rename_i s2 heq
      have hp := applyBatch_preserves_cache (validateBatch env username data).2 s k v h
      rw [heq] at hp
      simpa [exceptState, BatchResult.state] using hp
    · rename_i sf heq
      have hp := applyBatch_preserves_cache (validateBatch env username data).2 s k v h
      rw [heq] at hp
      simpa [exceptState, BatchResult.state] using hp
  · simpa [BatchResult.state] using h

/-- C8: no write operation of the core removes or overwrites an existing
cache binding: any key→value pair cached before
`create_self_user_library_entry`, `import_bookmarks` (create loop and
dismissal included), or `batch_update_user_library_entry` (apply phase
included — it may add bindings for previously uncached `library:<id>` keys
but never changes an existing one) is still cached with the same value
afterwards, whatever the outcome, so a read whose result was cached before
the write returns that same cached result after it. -/
theorem writes_preserve_cached_values (env : Env) (s : State) (username : String)
    (listing_id : Nat) (folder_name : Option String) (nid : Nat)
    (data : List DataEntry) (k : String) (v : CacheVal)
    (h : cacheGet s.cache k = some v) :
    cacheGet ((create_self_user_library_entry env s username listing_id
        folder_name).state).cache k = some v ∧
    cacheGet ((import_bookmarks env s username nid).state).cache k = some v ∧
    cacheGet ((batch_update_user_library_entry env s username data).state).cache k
      = some v := by
  refine ⟨?_, ?_, ?_⟩
  · rw [create_state_cache]
    exact h
  · rw [import_state_cache]
    exact h
  · exact batch_state_preserves_cache env s username data k v h

/-- Closed instantiation of `writes_preserve_cached_values`: the cached
`getAll` result survives a create, an import attempt, and a batch update that
really persists a folder change. -/
theorem writes_preserve_cached_values_witness :
    cacheGet sCached.cache libraryEntriesKey = some (CacheVal.entries [E1]) ∧
    cacheGet ((create_self_user_library_entry envFull sCached "alice" 1
        (some "Work")).state).cache libraryEntriesKey = some (CacheVal.entries [E1]) ∧
    cacheGet ((import_bookmarks envFull sCached "alice" 1).state).cache
      libraryEntriesKey = some (CacheVal.entries [E1]) ∧
    cacheGet ((batch_update_user_library_entry envFull sCached "alice"
        [dGood]).state).cache libraryEntriesKey = some (CacheVal.entries [E1]) :=
  ⟨by decide,
   writes_preserve_cached_values envFull sCached "alice" 1 (some "Work") 1 [dGood]
     libraryEntriesKey (CacheVal.entries [E1]) (by decide)⟩
